import Mathlib

/-!
Verification of the DynamoDB session store (src/lib/index.ts).

The development shallowly embeds the store's logic:

* The DynamoDB document client is an external collaborator; its commands
  (GetCommand, UpdateCommand, delete, scan, batchWrite) are modelled as
  operations on an association list `Table` keyed by sessionId, matching
  the spec's collaborator interface.
* JavaScript promise fulfilment/rejection is made explicit in the
  readiness-gate model (`ReadyOutcome`), because the store keeps only the
  `resolve` half of each queued promise.
* Times are integers (milliseconds since epoch), as produced by
  `Date.now()` and `Date.getTime()`.
* JSON.stringify / JSON.parse are external library functions; they are
  modelled as an injective tagged encoding of the session structure into a
  token list, with a genuine partial decoder (decode failure models a
  JSON.parse exception on a corrupt blob).
-/

namespace DynamoDBSessionStore

/-- Table status values reported by DescribeTable (client-dynamodb
`TableStatus`); the source inspects ACTIVE, DELETING and
INACCESSIBLE_ENCRYPTION_CREDENTIALS and treats everything else as
"keep waiting". -/
inductive TableStatus where
  | CREATING
  | UPDATING
  | ACTIVE
  | DELETING
  | INACCESSIBLE_ENCRYPTION_CREDENTIALS
  | ARCHIVING
  | ARCHIVED
  deriving DecidableEq, Repr

/-- Outcome of one DescribeTable call inside the wait loop: either a
status, or a thrown error (the catch branch at line 91). -/
inductive DescribeRes where
  | ok (s : TableStatus)
  | err (e : String)
  deriving DecidableEq, Repr

/-- The cookie sub-object of an express-session `SessionData`; `expires`
is a Date (modelled by its `getTime()` value in milliseconds) or
null/undefined. -/
structure SessionCookie where
  expires : Option Int
  deriving DecidableEq, Repr

/-- An express-session `SessionData` value: the cookie (which may be
absent at runtime — the source's `set` guards with `session.cookie?.`
while `touch` does not) plus the rest of the session payload, opaque to
the store and modelled as a token list. -/
structure SessionData where
  cookie : Option SessionCookie
  data : List Int
  deriving DecidableEq, Repr

/-- One stored DynamoDB item, as written by `set`/`touch` (lines
190-203, 258-271): the two expiry attributes (null modelled by `none`)
and the serialized session blob. The key attribute `sessionId` is kept
as the first component of the `Table` association list. -/
structure Item where
  expireTime : Option Int
  expireTime_TTL : Option Int
  session_data : List Int
  deriving DecidableEq, Repr

/-- The backing table: an association list from sessionId to item.
DynamoDB keys are unique; the upsert/delete operations below preserve
key uniqueness. -/
abbrev Table := List (String × Item)

/-! ### Session blob codec (models JSON.stringify / JSON.parse)

JSON serialization is an external collaborator ("opaque to the core;
treated as bytes in round-trip" per the spec), so it is modelled as an
injective tagged encoding with a real partial decoder. -/

/-- Models `JSON.stringify(session)`: a tag for the cookie shape
followed by the expiry value (when present) and the opaque payload. -/
def sessionStringify (s : SessionData) : List Int :=
  match s.cookie with
  | none => 0 :: s.data
  | some c =>
    match c.expires with
    | none => 1 :: s.data
    | some t => 2 :: t :: s.data

/-- Models `JSON.parse(blob)`: decodes the tagged encoding; `none`
models a thrown SyntaxError on a corrupt blob. -/
def sessionParse (b : List Int) : Option SessionData :=
  match b with
  | [] => none
  | tag :: rest =>
    if tag = 0 then some { cookie := none, data := rest }
    else if tag = 1 then some { cookie := some { expires := none }, data := rest }
    else if tag = 2 then
      match rest with
      | [] => none
      | t :: d => some { cookie := some { expires := some t }, data := d }
    else none

theorem sessionParse_sessionStringify (s : SessionData) :
    sessionParse (sessionStringify s) = some s := by
  obtain ⟨c, d⟩ := s
  cases c with
  | none => simp [sessionStringify, sessionParse]
  | some c =>
    obtain ⟨e⟩ := c
    cases e with
    | none => simp [sessionStringify, sessionParse]
    | some t => simp [sessionStringify, sessionParse]

/-! ### DynamoDB document client model

Point lookup, keyed upsert and keyed delete on the association list;
these model GetCommand, UpdateCommand (with a SET update expression on
every non-key attribute, hence an upsert of the full record) and
`client.delete`. -/

/-- Models `client.send(new GetCommand ...)`: first item with the key,
if any. -/
def lookupItem (table : Table) (sid : String) : Option Item :=
  match table with
  | [] => none
  | p :: rest => if p.1 = sid then some p.2 else lookupItem rest sid

/-- Models `client.send(new UpdateCommand ...)` whose update expression
sets every non-key attribute: replaces the item under the key, or
creates it. -/
def upsertItem (table : Table) (sid : String) (it : Item) : Table :=
  match table with
  | [] => [(sid, it)]
  | p :: rest => if p.1 = sid then (sid, it) :: rest else p :: upsertItem rest sid it

/-- Models `client.delete`: removes the item stored under the key. -/
def deleteItem (table : Table) (sid : String) : Table :=
  match table with
  | [] => []
  | p :: rest => if p.1 = sid then deleteItem rest sid else p :: deleteItem rest sid

theorem lookupItem_upsertItem (table : Table) (sid : String) (it : Item) :
    lookupItem (upsertItem table sid it) sid = some it := by
  induction table with
  | nil => simp [upsertItem, lookupItem]
  | cons p rest ih =>
    by_cases h : p.1 = sid <;> simp [upsertItem, lookupItem, h, ih]

theorem lookupItem_deleteItem (table : Table) (sid : String) :
    lookupItem (deleteItem table sid) sid = none := by
  induction table with
  | nil => simp [deleteItem, lookupItem]
  | cons p rest ih =>
    by_cases h : p.1 = sid <;> simp [deleteItem, lookupItem, h, ih]

/-! ### Expiry computation (lines 185-188 of `set`, 255-256 of `touch`)

JavaScript truthiness matters twice here: the guard on
`session.cookie?.expires` tests the Date object (truthy whenever
present, even at epoch), while the guard on `expireTime` tests the
number, so the number `0` takes the null branch. -/

/-- The value of `session.cookie?.expires ? new Date(session.cookie.expires).getTime() : null`:
the expiry instant in milliseconds, or null. -/
def expireTimeOf (session : SessionData) : Option Int :=
  match session.cookie with
  | none => none
  | some c => c.expires

/-- The value of `expireTime ? Math.floor(expireTime / 1000) : null`:
the number `0` is falsy in JavaScript, so an expireTime of exactly `0`
yields null here. `Int.fdiv` is floor division, matching `Math.floor`
of the real-number quotient. -/
def expireTTLOf (expireTime : Option Int) : Option Int :=
  match expireTime with
  | none => none
  | some t => if t = 0 then none else some (Int.fdiv t 1000)

/-- The full item written by `set` (lines 190-203): both expiry
attributes and the serialized blob. -/
def encodeItem (session : SessionData) : Item :=
  let expireTime := expireTimeOf session
  { expireTime := expireTime
    expireTime_TTL := expireTTLOf expireTime
    session_data := sessionStringify session }

/-! ### CRUD operations (lines 157-277)

Each operation is a function of the current table; the returned
`Option String` is the error argument the operation passes to its
callback (`none` models `null`/`undefined`, i.e. success). Transport
errors of the storage client are outside the model: the collaborator
executes every request. -/

/-- Operation `get` (lines 157-179): point lookup; a present item's
blob is JSON.parsed (a parse exception is caught and delivered as the
callback error); a missing item yields `(null, null)`. -/
def get (table : Table) (sessionId : String) : Option String × Option SessionData :=
  match lookupItem table sessionId with
  | some item =>
    match sessionParse item.session_data with
    | some session => (none, some session)
    | none => (some "SyntaxError", none)
  | none => (none, none)

/-- Operation `set` (lines 181-209): computes both expiry fields,
unconditionally upserts the full record, reports success. -/
def set (table : Table) (sid : String) (session : SessionData) : Table × Option String :=
  (upsertItem table sid (encodeItem session), none)

/-- Operation `touch` (lines 251-277): identical update to `set`,
except that it reads `session.cookie.expires` without optional
chaining, so a session without a cookie throws a TypeError, which the
catch delivers to the callback with no write performed. -/
def touch (table : Table) (sid : String) (session : SessionData) : Table × Option String :=
  match session.cookie with
  | none => (table, some "TypeError")
  | some c =>
    let expireTime := c.expires
    let expireTime_TTL := expireTTLOf expireTime
    (upsertItem table sid
      { expireTime := expireTime
        expireTime_TTL := expireTime_TTL
        session_data := sessionStringify session }, none)

/-- Operation `destroy` (lines 212-238): look up first; delete only a
present item, otherwise report the not-found error. -/
def destroy (table : Table) (sid : String) : Table × Option String :=
  match lookupItem table sid with
  | some _ => (deleteItem table sid, none)
  | none => (table, some "Not found session ID")

/-- The scan filter of `reap` (lines 285-294): the expression
`expireTime < :currentTime` matches exactly the items whose
`expireTime` attribute is a number strictly below the current instant;
a null attribute never satisfies the comparison. -/
def isExpiredItem (now : Int) (it : Item) : Bool :=
  match it.expireTime with
  | some t => decide (t < now)
  | none => false

/-- The scan of `reap`: all items matching the expiry filter. -/
def reapScan (now : Int) (table : Table) : List (String × Item) :=
  table.filter (fun p => isExpiredItem now p.2)

/-- Operation `reap` (lines 280-318): scans for expired items, builds
one DeleteRequest per match, and issues a SINGLE batchWrite containing
every key (the middle component lists the batch requests issued, each
being the key list of one batchWrite call; the source never chunks and
issues the call even when the list is empty). The resulting table has
every requested key deleted. -/
def reap (now : Int) (table : Table) : Table × List (List String) × Option String :=
  let deleteRequests := (reapScan now table).map (fun p => p.1)
  let requests := [deleteRequests]
  (table.filter (fun p => decide (p.1 ∉ deleteRequests)), requests, none)

/-! ### Readiness gate (lines 13-72)

The class keeps `state` and `onReadyPromises`, an array holding the
RESOLVE function of every promise handed out while still INITIALIZING.
A settled waiter observes a `ReadyOutcome`: its promise was either
fulfilled (possibly with a value — `await` discards it and the
operation proceeds) or rejected with a reason (the operation's catch
receives it; `none` models an `undefined` reason). Waiters are
identified by numbers so that the released outcomes can be listed. -/

inductive GateState where
  | INITIALIZING
  | INITIALIZED
  | FAIL
  deriving DecidableEq, Repr

inductive ReadyOutcome where
  | fulfilled (v : Option String)
  | rejected (e : Option String)
  deriving DecidableEq, Repr

structure Gate where
  state : GateState
  onReadyPromises : List Nat
  deriving DecidableEq, Repr

/-- Method `onReady` (lines 48-58): INITIALIZED resolves at once, FAIL
rejects at once with `reject()` — no argument, so the rejection reason
is undefined — and INITIALIZING pushes the resolver and yields no
outcome yet. -/
def onReady (g : Gate) (w : Nat) : Gate × Option ReadyOutcome :=
  match g.state with
  | GateState.INITIALIZED => (g, some (ReadyOutcome.fulfilled none))
  | GateState.FAIL => (g, some (ReadyOutcome.rejected none))
  | GateState.INITIALIZING => ({ g with onReadyPromises := g.onReadyPromises ++ [w] }, none)

/-- Method `resolveReadyPromises` (lines 60-65): calls every stored
resolver with no argument and clears the queue. -/
def resolveReadyPromises (g : Gate) : Gate × List (Nat × ReadyOutcome) :=
  ({ g with onReadyPromises := [] },
    g.onReadyPromises.map (fun w => (w, ReadyOutcome.fulfilled none)))

/-- Method `rejectReadyPromises` (lines 67-72): iterates the stored
RESOLVE functions and calls `resolve(error)` — each queued promise is
therefore FULFILLED with the error as its value, not rejected. -/
def rejectReadyPromises (g : Gate) (error : String) : Gate × List (Nat × ReadyOutcome) :=
  ({ g with onReadyPromises := [] },
    g.onReadyPromises.map (fun w => (w, ReadyOutcome.fulfilled (some error))))

/-- The constructor's continuation (lines 34-46): on provisioning
success set INITIALIZED and resolve the queue; on failure set FAIL and
run `rejectReadyPromises`. -/
def settleProvision (g : Gate) (r : Except String Unit) : Gate × List (Nat × ReadyOutcome) :=
  match r with
  | Except.ok _ => resolveReadyPromises { g with state := GateState.INITIALIZED }
  | Except.error e => rejectReadyPromises { g with state := GateState.FAIL } e

/-- Storage requests an operation can issue, for stating that a gated
operation does or does not touch storage. -/
inductive StorageReq where
  | getReq (sid : String)
  | updateReq (sid : String) (it : Item)
  | deleteReq (sid : String)
  | scanReq
  | batchWriteReq (keys : List String)
  deriving DecidableEq, Repr

/-- Operation `get` including its `await this.onReady()` prologue, as a
function of the settled outcome of that await: a fulfilled promise
(whatever its value) lets the operation proceed to issue its
GetCommand; a rejected promise is caught and its reason delivered to
the callback with no storage request issued. -/
def gatedGet (r : ReadyOutcome) (table : Table) (sid : String) :
    List StorageReq × (Option String × Option SessionData) :=
  match r with
  | ReadyOutcome.fulfilled _ => ([StorageReq.getReq sid], get table sid)
  | ReadyOutcome.rejected e => ([], (e, none))

/-- Operation `set` including its `await this.onReady()` prologue,
analogous to `gatedGet`. -/
def gatedSet (r : ReadyOutcome) (table : Table) (sid : String) (session : SessionData) :
    List StorageReq × (Table × Option String) :=
  match r with
  | ReadyOutcome.fulfilled _ => ([StorageReq.updateReq sid (encodeItem session)], set table sid session)
  | ReadyOutcome.rejected e => ([], (table, e))

/-! ### Table provisioner (lines 75-134)

The wait loop `waitUntilTableExists` is embedded as a function of the
observation trace (what DescribeTable reports at each instant) and of
time: every sleep advances the clock by exactly 1000 ms, and each
DescribeTable call is instantaneous. The pair returned is the loop's
result together with the instant at which it terminates. -/

/-- The common error thrown on timeout and after a terminal status
(the source throws the same timed-out message in both cases, line 96). -/
def timedOutMsg : String := "Timed out waiting for table to exist"

/-- One iteration's decision (the body of the while loop, lines 81-93):
ACTIVE returns, DELETING and INACCESSIBLE_ENCRYPTION_CREDENTIALS break
out to the throw, and every other status — as well as a DescribeTable
exception — sleeps and polls again (`none`). -/
def pollStep (r : DescribeRes) : Option (Except String Unit) :=
  match r with
  | DescribeRes.ok TableStatus.ACTIVE => some (Except.ok ())
  | DescribeRes.ok TableStatus.DELETING => some (Except.error timedOutMsg)
  | DescribeRes.ok TableStatus.INACCESSIBLE_ENCRYPTION_CREDENTIALS =>
      some (Except.error timedOutMsg)
  | _ => none

/-- The while loop of `waitUntilTableExists` (lines 80-94): while the
clock is before `endTime`, poll; on a decisive observation stop, else
sleep 1000 ms; once the clock reaches `endTime`, throw the timeout
error. -/
def waitPoll (observe : Int → DescribeRes) (endTime now : Int) :
    Except String Unit × Int :=
  if now < endTime then
    match pollStep (observe now) with
    | some res => (res, now)
    | none => waitPoll observe endTime (now + 1000)
  else (Except.error timedOutMsg, now)
termination_by (endTime - now).toNat
decreasing_by omega

/-- Method `waitUntilTableExists` (lines 75-97): the poll loop run from
`startTime` until `startTime + timeout`, default timeout 6000 ms. -/
def waitUntilTableExists (observe : Int → DescribeRes) (startTime : Int)
    (timeout : Int := 6000) : Except String Unit × Int :=
  waitPoll observe (startTime + timeout) startTime

/-- Outcome of the initial DescribeTable of `createTableIfNotExists`. -/
inductive DescribeTableOutcome where
  | found
  | resourceNotFound
  | otherError (e : String)
  deriving DecidableEq, Repr

/-- Method `createTableIfNotExists` (lines 99-134): if the table is
found, the result is that of `updateTableTTL` (which rethrows its
errors); if the describe failed with ResourceNotFoundException, create
the table and wait for it with the default timeout; any other error is
rethrown. -/
def createTableIfNotExists (d : DescribeTableOutcome) (ttlResult : Except String Unit)
    (observe : Int → DescribeRes) (startTime : Int) : Except String Unit :=
  match d with
  | DescribeTableOutcome.found => ttlResult
  | DescribeTableOutcome.resourceNotFound => (waitUntilTableExists observe startTime).1
  | DescribeTableOutcome.otherError e => Except.error e

/-! ## Claim theorems -/

/-- C8: for every serializable session payload and session id,
`set(id, session)` followed by `get(id)` on an initialized store yields
a payload equal to the original session (round-trip law). -/
theorem set_get_roundtrip (table : Table) (sid : String) (session : SessionData) :
    get (set table sid session).1 sid = (none, some session) := by
  simp [get, set, lookupItem_upsertItem, encodeItem, sessionParse_sessionStringify]

/-- C7: `destroy` on an id with no stored record delivers a not-found
error and leaves the store unchanged, while `destroy` on an id with a
stored record succeeds and removes it, so that a subsequent `get` for
the same id returns absent without error. -/
theorem destroy_get_spec (t₁ t₂ : Table) (sid₁ sid₂ : String) (it : Item)
    (h₁ : lookupItem t₁ sid₁ = none) (h₂ : lookupItem t₂ sid₂ = some it) :
    destroy t₁ sid₁ = (t₁, some "Not found session ID") ∧
    (destroy t₂ sid₂).2 = none ∧
    get (destroy t₂ sid₂).1 sid₂ = (none, none) := by
  refine ⟨?_, ?_, ?_⟩ <;> simp [destroy, h₁, h₂, get, lookupItem_deleteItem]

/-- Witness for C7: a concrete absent id and a concrete present id. -/
theorem destroy_get_spec_witness :
    destroy [] "x" = ([], some "Not found session ID") ∧
    (destroy [("a", { expireTime := none, expireTime_TTL := none, session_data := [0] })] "a").2
      = none ∧
    get (destroy [("a", { expireTime := none, expireTime_TTL := none, session_data := [0] })]
        "a").1 "a" = (none, none) :=
  destroy_get_spec [] [("a", { expireTime := none, expireTime_TTL := none, session_data := [0] })]
    "x" "a" { expireTime := none, expireTime_TTL := none, session_data := [0] }
    (by decide) (by decide)

/-- C10: `touch` on a session whose cookie field is absent delivers an
error to its callback and performs no storage write, whereas `set` on
the same session succeeds and stores the record with both expiry
fields null. -/
theorem touch_missing_cookie_diverges_from_set (table : Table) (sid : String)
    (session : SessionData) (hc : session.cookie = none) :
    touch table sid session = (table, some "TypeError") ∧
    (set table sid session).2 = none ∧
    lookupItem (set table sid session).1 sid =
      some { expireTime := none, expireTime_TTL := none,
             session_data := sessionStringify session } := by
  obtain ⟨c, d⟩ := session
  simp only [SessionData.cookie] at hc
  subst hc
  refine ⟨?_, ?_, ?_⟩ <;>
    simp [touch, set, encodeItem, expireTimeOf, expireTTLOf, lookupItem_upsertItem]

/-- Witness for C10: a concrete cookieless session. -/
theorem touch_missing_cookie_diverges_from_set_witness :
    touch [] "s" { cookie := none, data := [5] } = ([], some "TypeError") ∧
    (set [] "s" { cookie := none, data := [5] }).2 = none ∧
    lookupItem (set [] "s" { cookie := none, data := [5] }).1 "s" =
      some { expireTime := none, expireTime_TTL := none,
             session_data := sessionStringify { cookie := none, data := [5] } } :=
  touch_missing_cookie_diverges_from_set [] "s" { cookie := none, data := [5] } rfl

/-- C5 counterexample: on a session whose cookie field is absent,
`touch` and `set` do not agree — `touch` reports a TypeError and writes
nothing while `set` succeeds — so the two operations are not
functionally identical on every input. -/
theorem touch_ne_set_without_cookie :
    touch [] "sid" { cookie := none, data := [5] } = ([], some "TypeError") ∧
    (set [] "sid" { cookie := none, data := [5] }).2 = none ∧
    touch [] "sid" { cookie := none, data := [5] } ≠
      set [] "sid" { cookie := none, data := [5] } := by
  decide

/-- C5 (amended): for every session whose cookie field is present,
`touch` is functionally identical to `set` — same storage effect and
same reported result — including when the session extends from no
expiry to an expiry or vice versa. -/
theorem touch_eq_set_of_cookie_present (table : Table) (sid : String)
    (session : SessionData) (hc : session.cookie ≠ none) :
    touch table sid session = set table sid session := by
  obtain ⟨c, d⟩ := session
  cases c with
  | none => simp at hc
  | some c => simp [touch, set, encodeItem, expireTimeOf]

/-- Witness for C5: sessions with a cookie, one with an expiry and one
without, on which `touch` and `set` coincide. -/
theorem touch_eq_set_of_cookie_present_witness :
    touch [] "s" { cookie := some { expires := some 7000 }, data := [1] } =
      set [] "s" { cookie := some { expires := some 7000 }, data := [1] } ∧
    touch [] "s" { cookie := some { expires := none }, data := [1] } =
      set [] "s" { cookie := some { expires := none }, data := [1] } :=
  ⟨touch_eq_set_of_cookie_present [] "s" { cookie := some { expires := some 7000 }, data := [1] }
      (by simp),
    touch_eq_set_of_cookie_present [] "s" { cookie := some { expires := none }, data := [1] }
      (by simp)⟩

/-- C4 counterexample: a session whose cookie expiry is exactly the
epoch instant (0 ms) is stored with `expireTime = 0` but
`expireTime_TTL = null`, because the number 0 is falsy in the guard
`expireTime ? Math.floor(expireTime / 1000) : null`; the record has one
of the two fields present without the other, and the TTL field is not
`floor(expireTime / 1000)`. -/
theorem set_epoch_expiry_one_field_missing :
    lookupItem (set [] "sid" { cookie := some { expires := some 0 }, data := [] }).1 "sid" =
      some { expireTime := some 0, expireTime_TTL := none,
             session_data :=
               sessionStringify { cookie := some { expires := some 0 }, data := [] } } ∧
    (none : Option Int) ≠ some (Int.fdiv 0 1000) := by
  decide

/-- C4 (amended): for every session passed to `set`, and for every
session with a present cookie passed to `touch` (a cookieless `touch`
errors and stores nothing — see C5/C10): if a cookie expiry instant
`t` (in milliseconds) is present and nonzero, the stored record has
`expireTime = t` and `expireTime_TTL = floor(t / 1000)`; if no cookie
expiry is present, both fields are null. The only input with one field
present without the other — for either operation — is an expiry of
exactly 0 ms, where `expireTime = 0` is stored with a null
`expireTime_TTL`. The four quantified sessions cover every branch:
`s₁` nonzero expiry (set and touch), `s₂` no expiry under `set`,
`s₃` no expiry with a present cookie under `touch`, and `s₄` the 0 ms
exception (set and touch). -/
theorem set_touch_expiry_fields (t₁ t₂ t₃ t₄ : Table)
    (sid₁ sid₂ sid₃ sid₄ : String)
    (s₁ s₂ s₃ s₄ : SessionData) (t : Int)
    (h₁ : expireTimeOf s₁ = some t) (h0 : t ≠ 0)
    (h₂ : expireTimeOf s₂ = none)
    (h₃ : expireTimeOf s₃ = none) (hc₃ : s₃.cookie ≠ none)
    (h₄ : expireTimeOf s₄ = some 0) :
    lookupItem (set t₁ sid₁ s₁).1 sid₁ =
      some { expireTime := some t, expireTime_TTL := some (Int.fdiv t 1000),
             session_data := sessionStringify s₁ } ∧
    lookupItem (touch t₁ sid₁ s₁).1 sid₁ =
      some { expireTime := some t, expireTime_TTL := some (Int.fdiv t 1000),
             session_data := sessionStringify s₁ } ∧
    lookupItem (set t₂ sid₂ s₂).1 sid₂ =
      some { expireTime := none, expireTime_TTL := none,
             session_data := sessionStringify s₂ } ∧
    lookupItem (touch t₃ sid₃ s₃).1 sid₃ =
      some { expireTime := none, expireTime_TTL := none,
             session_data := sessionStringify s₃ } ∧
    lookupItem (set t₄ sid₄ s₄).1 sid₄ =
      some { expireTime := some 0, expireTime_TTL := none,
             session_data := sessionStringify s₄ } ∧
    lookupItem (touch t₄ sid₄ s₄).1 sid₄ =
      some { expireTime := some 0, expireTime_TTL := none,
             session_data := sessionStringify s₄ } := by
  refine ⟨?_, ?_, ?_, ?_, ?_, ?_⟩
  · simp [set, encodeItem, h₁, expireTTLOf, h0, lookupItem_upsertItem]
  · obtain ⟨c, d⟩ := s₁
    cases c with
    | none => simp [expireTimeOf] at h₁
    | some c =>
      simp only [expireTimeOf] at h₁
      simp [touch, h₁, expireTTLOf, h0, lookupItem_upsertItem]
  · simp [set, encodeItem, h₂, expireTTLOf, lookupItem_upsertItem]
  · obtain ⟨c, d⟩ := s₃
    cases c with
    | none => simp at hc₃
    | some c =>
      simp only [expireTimeOf] at h₃
      simp [touch, h₃, expireTTLOf, lookupItem_upsertItem]
  · simp [set, encodeItem, h₄, expireTTLOf, lookupItem_upsertItem]
  · obtain ⟨c, d⟩ := s₄
    cases c with
    | none => simp [expireTimeOf] at h₄
    | some c =>
      simp only [expireTimeOf] at h₄
      simp [touch, h₄, expireTTLOf, lookupItem_upsertItem]

/-- Witness for C4: a concrete nonzero expiry (1500 ms, truncating to
1 s) through both operations, a concrete cookieless session under
`set`, a concrete cookie-without-expiry session under `touch`, and the
concrete 0 ms exception through both operations. -/
theorem set_touch_expiry_fields_witness :
    lookupItem (set [] "a" { cookie := some { expires := some 1500 }, data := [] }).1 "a" =
      some { expireTime := some 1500, expireTime_TTL := some (Int.fdiv 1500 1000),
             session_data :=
               sessionStringify { cookie := some { expires := some 1500 }, data := [] } } ∧
    lookupItem (touch [] "a" { cookie := some { expires := some 1500 }, data := [] }).1 "a" =
      some { expireTime := some 1500, expireTime_TTL := some (Int.fdiv 1500 1000),
             session_data :=
               sessionStringify { cookie := some { expires := some 1500 }, data := [] } } ∧
    lookupItem (set [] "b" { cookie := none, data := [] }).1 "b" =
      some { expireTime := none, expireTime_TTL := none,
             session_data := sessionStringify { cookie := none, data := [] } } ∧
    lookupItem (touch [] "c" { cookie := some { expires := none }, data := [] }).1 "c" =
      some { expireTime := none, expireTime_TTL := none,
             session_data :=
               sessionStringify { cookie := some { expires := none }, data := [] } } ∧
    lookupItem (set [] "d" { cookie := some { expires := some 0 }, data := [] }).1 "d" =
      some { expireTime := some 0, expireTime_TTL := none,
             session_data :=
               sessionStringify { cookie := some { expires := some 0 }, data := [] } } ∧
    lookupItem (touch [] "d" { cookie := some { expires := some 0 }, data := [] }).1 "d" =
      some { expireTime := some 0, expireTime_TTL := none,
             session_data :=
               sessionStringify { cookie := some { expires := some 0 }, data := [] } } :=
  set_touch_expiry_fields [] [] [] [] "a" "b" "c" "d"
    { cookie := some { expires := some 1500 }, data := [] }
    { cookie := none, data := [] }
    { cookie := some { expires := none }, data := [] }
    { cookie := some { expires := some 0 }, data := [] }
    1500 rfl (by decide) rfl rfl (by decide) rfl

/-- C1: code bug. Operations invoked while the store is INITIALIZING
are queued with no outcome; when provisioning fails,
`rejectReadyPromises` calls each stored RESOLVE function with the error
as argument, so every queued promise is FULFILLED — the awaiting
operations resume normally and proceed to issue their storage
requests, instead of failing together as specified. (On provisioning
success they are also fulfilled and proceed, so success and failure
are indistinguishable to queued waiters.) -/
theorem gate_fail_queued_operations_proceed :
    (onReady { state := GateState.INITIALIZING, onReadyPromises := [] } 1).2 = none ∧
    (settleProvision { state := GateState.INITIALIZING, onReadyPromises := [1, 2] }
        (Except.error "ProvisionError")).2 =
      [(1, ReadyOutcome.fulfilled (some "ProvisionError")),
       (2, ReadyOutcome.fulfilled (some "ProvisionError"))] ∧
    (gatedGet (ReadyOutcome.fulfilled (some "ProvisionError")) [] "abc").1 =
      [StorageReq.getReq "abc"] ∧
    (gatedSet (ReadyOutcome.fulfilled (some "ProvisionError")) [] "abc"
        { cookie := none, data := [] }).1 ≠ [] ∧
    (settleProvision { state := GateState.INITIALIZING, onReadyPromises := [1, 2] }
        (Except.ok ())).2 =
      [(1, ReadyOutcome.fulfilled none), (2, ReadyOutcome.fulfilled none)] := by
  decide

/-- C2 counterexample: after provisioning fails with an error, a later
gated caller is rejected by `reject()` with NO argument — the class
never stores the provisioning error — so the outcome delivered to the
caller is an undefined reason, not the provisioning error, and the
error handed to the operation's callback is empty. -/
theorem gate_fail_error_not_replayed :
    (settleProvision { state := GateState.INITIALIZING, onReadyPromises := [] }
        (Except.error "ProvisionError")).1.state = GateState.FAIL ∧
    (onReady (settleProvision { state := GateState.INITIALIZING, onReadyPromises := [] }
        (Except.error "ProvisionError")).1 0).2 = some (ReadyOutcome.rejected none) ∧
    ReadyOutcome.rejected none ≠ ReadyOutcome.rejected (some "ProvisionError") ∧
    (gatedGet (ReadyOutcome.rejected none) [] "abc").2.1 = none := by
  decide

/-- C2 (amended): every gated operation invoked after provisioning has
failed short-circuits without issuing any storage request and receives
the same outcome as every other such caller — but that outcome is an
argument-less rejection (an undefined error), not the stored
provisioning error: `get` reports `(undefined, null)` and `set`
reports success-shaped `undefined` with the table untouched. -/
theorem gate_fail_short_circuits_without_storage (g : Gate) (w : Nat) (table : Table)
    (sid : String) (session : SessionData) (hf : g.state = GateState.FAIL) :
    (onReady g w).2 = some (ReadyOutcome.rejected none) ∧
    gatedGet (ReadyOutcome.rejected none) table sid = ([], (none, none)) ∧
    gatedSet (ReadyOutcome.rejected none) table sid session = ([], (table, none)) := by
  refine ⟨?_, rfl, rfl⟩
  simp [onReady, hf]

/-- Witness for C2: a concrete failed gate and caller. -/
theorem gate_fail_short_circuits_without_storage_witness :
    (onReady { state := GateState.FAIL, onReadyPromises := [] } 7).2 =
      some (ReadyOutcome.rejected none) ∧
    gatedGet (ReadyOutcome.rejected none) [] "abc" = ([], (none, none)) ∧
    gatedSet (ReadyOutcome.rejected none) [] "abc" { cookie := none, data := [] } =
      ([], ([], none)) :=
  gate_fail_short_circuits_without_storage { state := GateState.FAIL, onReadyPromises := [] }
    7 [] "abc" { cookie := none, data := [] } rfl

/-- Concrete table of 26 expired records used to evaluate `reap`
against the batching claim. -/
def reapTable26 : Table :=
  (List.range 26).map
    (fun i => (Nat.repr i,
      { expireTime := some 0, expireTime_TTL := none, session_data := [] }))

/-- C3: code bug. A `reap` whose scan finds 26 expired records issues a
single batchWrite containing all 26 keys — one request, unchunked,
above the engine's 25-key batch cap — and a `reap` whose scan finds
zero matches still issues a batchWrite (with an empty request list)
rather than issuing nothing. -/
theorem reap_single_unbounded_batch :
    (reap 1 reapTable26).2.1.length = 1 ∧
    ((reap 1 reapTable26).2.1.headD []).length = 26 ∧
    25 < ((reap 1 reapTable26).2.1.headD []).length ∧
    (reap 1 ([] : Table)).2.1 = [[]] := by
  decide

/-! ### Reap exactness (claim C6) -/

theorem not_mem_reapKeys_eq (now : Int) (table : Table)
    (hnd : (table.map Prod.fst).Nodup) (p : String × Item) (hp : p ∈ table) :
    (decide (p.1 ∉ (reapScan now table).map Prod.fst)) = ! isExpiredItem now p.2 := by
  by_cases he : isExpiredItem now p.2
  · have hmem : p.1 ∈ (reapScan now table).map Prod.fst :=
      List.mem_map_of_mem Prod.fst (List.mem_filter.2 ⟨hp, he⟩)
    simp [hmem, he]
  · have hnot : p.1 ∉ (reapScan now table).map Prod.fst := by
      intro hk
      obtain ⟨q, hq, hq1⟩ := List.mem_map.1 hk
      obtain ⟨hqt, hqe⟩ := List.mem_filter.1 hq
      have : q = p := List.inj_on_of_nodup_map hnd hqt hp hq1
      exact he (this ▸ hqe)
    simp [hnot, he]

/-- C6: `reap` deletes exactly the records whose `expireTime` is
strictly less than the current instant and leaves every record with a
future or null `expireTime` unchanged (the surviving table is the
filter of the original); consequently a second `reap` with no new
expirations scans nothing and deletes nothing. -/
theorem reap_deletes_exactly_expired (now : Int) (table : Table)
    (hnd : (table.map Prod.fst).Nodup) :
    (reap now table).1 = table.filter (fun p => ! isExpiredItem now p.2) ∧
    reapScan now ((reap now table).1) = [] ∧
    (reap now ((reap now table).1)).1 = (reap now table).1 := by
  have h1 : (reap now table).1 = table.filter (fun p => ! isExpiredItem now p.2) := by
    simp only [reap]
    exact List.filter_congr (fun p hp => not_mem_reapKeys_eq now table hnd p hp)
  have h2 : reapScan now ((reap now table).1) = [] := by
    rw [h1, reapScan, List.filter_filter]
    have : ∀ p : String × Item,
        (isExpiredItem now p.2 && ! isExpiredItem now p.2) = false := by
      intro p; cases isExpiredItem now p.2 <;> rfl
    simp [this]
  refine ⟨h1, h2, ?_⟩
  have hnoop : ∀ tbl : Table, reapScan now tbl = [] → (reap now tbl).1 = tbl := by
    intro tbl h
    simp [reap, h]
  exact hnoop _ h2

/-- Concrete three-record table for the C6 witness: one expired record,
one future record, one record with null expiry. -/
def reapTable0 : Table :=
  [("a", { expireTime := some 50, expireTime_TTL := some 0, session_data := [0] }),
   ("b", { expireTime := some 200, expireTime_TTL := some 0, session_data := [0] }),
   ("c", { expireTime := none, expireTime_TTL := none, session_data := [0] })]

/-- Witness for C6: the three-record table at instant 100. -/
theorem reap_deletes_exactly_expired_witness :
    (reapTable0.map Prod.fst).Nodup ∧
    ((reap 100 reapTable0).1 = reapTable0.filter (fun p => ! isExpiredItem 100 p.2) ∧
      reapScan 100 ((reap 100 reapTable0).1) = [] ∧
      (reap 100 ((reap 100 reapTable0).1)).1 = (reap 100 reapTable0).1) :=
  ⟨by decide, reap_deletes_exactly_expired 100 reapTable0 (by decide)⟩

/-! ### Wait-loop lemmas (claim C9) -/

theorem waitPoll_decisive (observe : Int → DescribeRes) (endTime now : Int)
    (h : now < endTime) (res : Except String Unit)
    (hres : pollStep (observe now) = some res) :
    waitPoll observe endTime now = (res, now) := by
  rw [waitPoll]
  simp [h, hres]

theorem waitPoll_sleep (observe : Int → DescribeRes) (endTime now : Int)
    (h : now < endTime) (hres : pollStep (observe now) = none) :
    waitPoll observe endTime now = waitPoll observe endTime (now + 1000) := by
  rw [waitPoll]
  simp [h, hres]

theorem waitPoll_done (observe : Int → DescribeRes) (endTime now : Int)
    (h : ¬ now < endTime) :
    waitPoll observe endTime now = (Except.error timedOutMsg, now) := by
  rw [waitPoll]
  simp [h]

/-- Skipping over indecisive polls: if the first `k` polls (one second
apart) are indecisive, the loop reaches the poll at `start + 1000 * k`. -/
theorem waitPoll_skip (observe : Int → DescribeRes) (endTime : Int) (k : Nat) :
    ∀ start : Int,
      (∀ j : Nat, j < k → pollStep (observe (start + 1000 * j)) = none) →
      start + 1000 * k < endTime →
      waitPoll observe endTime start = waitPoll observe endTime (start + 1000 * k) := by
  induction k with
  | zero => intro start _ _; simp
  | succ k ih =>
    intro start hind hk
    have h0 : pollStep (observe start) = none := by
      have := hind 0 (Nat.succ_pos k)
      simpa using this
    have hlt : start < endTime := by
      have hc : (0 : Int) ≤ 1000 * ((k : Int) + 1) := by positivity
      push_cast at hk
      omega
    rw [waitPoll_sleep observe endTime start hlt h0]
    have hstep := ih (start + 1000)
      (fun j hj => by
        have := hind (j + 1) (Nat.succ_lt_succ hj)
        have harg : start + 1000 * ((j : Int) + 1) = start + 1000 + 1000 * (j : Int) := by ring
        push_cast at this
        rw [harg] at this
        exact this)
      (by push_cast at hk ⊢; omega)
    rw [hstep]
    have harg : start + 1000 + 1000 * (k : Int) = start + 1000 * ((k : Int) + 1) := by ring
    rw [harg]
    push_cast
    ring_nf

/-- The loop's finishing instant never exceeds `endTime` when the
remaining window is a multiple of the 1000 ms sleep. -/
theorem waitPoll_finish_le (observe : Int → DescribeRes) (endTime : Int) :
    ∀ (fuel : Nat) (now : Int), (endTime - now).toNat ≤ fuel →
      (1000 : Int) ∣ (endTime - now) → now ≤ endTime →
      (waitPoll observe endTime now).2 ≤ endTime := by
  intro fuel
  induction fuel with
  | zero =>
    intro now hfuel _ hle
    have hnl : ¬ now < endTime := by omega
    rw [waitPoll_done observe endTime now hnl]
    exact hle
  | succ fuel ih =>
    intro now hfuel hdvd hle
    by_cases h : now < endTime
    · cases hres : pollStep (observe now) with
      | some res =>
        rw [waitPoll_decisive observe endTime now h res hres]
        exact le_of_lt h
      | none =>
        rw [waitPoll_sleep observe endTime now h hres]
        obtain ⟨m, hm⟩ := hdvd
        have hm1 : 1 ≤ m := by omega
        apply ih (now + 1000)
        · omega
        · exact ⟨m - 1, by linarith⟩
        · omega
    · rw [waitPoll_done observe endTime now h]
      exact hle

/-- C9: after creating a missing table, the provisioner polls the
table's status at a fixed 1000 ms interval (`createTableIfNotExists` on
a not-found table runs `waitUntilTableExists` with its default 6000 ms
timeout); the loop returns successfully at the first ACTIVE
observation, raises the fatal error at the first terminal status
(DELETING or inaccessible-encryption-credentials), raises the fatal
error when the timeout elapses with neither, and in every case the
loop terminates no later than `start + 6000`. -/
theorem waitUntilTableExists_spec
    (observe₁ observe₂ observe₃ observe₄ : Int → DescribeRes)
    (start₁ start₂ start₃ start₄ : Int) (k₁ k₂ : Nat) (s₂ : TableStatus)
    (ttlResult : Except String Unit)
    (h₁ : ∀ j : Nat, j < k₁ → pollStep (observe₁ (start₁ + 1000 * j)) = none)
    (ha : observe₁ (start₁ + 1000 * k₁) = DescribeRes.ok TableStatus.ACTIVE)
    (hk₁ : 1000 * (k₁ : Int) < 6000)
    (h₂ : ∀ j : Nat, j < k₂ → pollStep (observe₂ (start₂ + 1000 * j)) = none)
    (hterm : s₂ = TableStatus.DELETING ∨
      s₂ = TableStatus.INACCESSIBLE_ENCRYPTION_CREDENTIALS)
    (hb : observe₂ (start₂ + 1000 * k₂) = DescribeRes.ok s₂)
    (hk₂ : 1000 * (k₂ : Int) < 6000)
    (h₃ : ∀ j : Nat, j < 6 → pollStep (observe₃ (start₃ + 1000 * j)) = none) :
    waitUntilTableExists observe₁ start₁ = (Except.ok (), start₁ + 1000 * k₁) ∧
    waitUntilTableExists observe₂ start₂ = (Except.error timedOutMsg, start₂ + 1000 * k₂) ∧
    waitUntilTableExists observe₃ start₃ = (Except.error timedOutMsg, start₃ + 6000) ∧
    (waitUntilTableExists observe₄ start₄).2 ≤ start₄ + 6000 ∧
    createTableIfNotExists DescribeTableOutcome.resourceNotFound ttlResult observe₁ start₁ =
      Except.ok () := by
  have hc1 : waitUntilTableExists observe₁ start₁ = (Except.ok (), start₁ + 1000 * k₁) := by
    rw [waitUntilTableExists,
      waitPoll_skip observe₁ (start₁ + 6000) k₁ start₁ h₁ (by omega)]
    exact waitPoll_decisive observe₁ (start₁ + 6000) (start₁ + 1000 * k₁) (by omega)
      (Except.ok ()) (by simp [pollStep, ha])
  have hc2 : waitUntilTableExists observe₂ start₂ =
      (Except.error timedOutMsg, start₂ + 1000 * k₂) := by
    rw [waitUntilTableExists,
      waitPoll_skip observe₂ (start₂ + 6000) k₂ start₂ h₂ (by omega)]
    refine waitPoll_decisive observe₂ (start₂ + 6000) (start₂ + 1000 * k₂) (by omega)
      (Except.error timedOutMsg) ?_
    rcases hterm with h | h <;> subst h <;> simp [pollStep, hb]
  have hc3 : waitUntilTableExists observe₃ start₃ =
      (Except.error timedOutMsg, start₃ + 6000) := by
    rw [waitUntilTableExists,
      waitPoll_skip observe₃ (start₃ + 6000) 5 start₃
        (fun j hj => h₃ j (by omega)) (by push_cast; omega)]
    have h5 : pollStep (observe₃ (start₃ + 1000 * ((5 : Nat) : Int))) = none :=
      h₃ 5 (by omega)
    rw [waitPoll_sleep observe₃ (start₃ + 6000) (start₃ + 1000 * ((5 : Nat) : Int))
      (by push_cast; omega) h5]
    have harith : start₃ + 1000 * ((5 : Nat) : Int) + 1000 = start₃ + 6000 := by
      push_cast; ring
    rw [harith]
    exact waitPoll_done observe₃ (start₃ + 6000) (start₃ + 6000) (by omega)
  have hc4 : (waitUntilTableExists observe₄ start₄).2 ≤ start₄ + 6000 := by
    rw [waitUntilTableExists]
    exact waitPoll_finish_le observe₄ (start₄ + 6000) 6000 start₄ (by omega)
      ⟨6, by ring⟩ (by omega)
  exact ⟨hc1, hc2, hc3, hc4, by rw [createTableIfNotExists, hc1]⟩

/-- Witness for C9: four concrete observation traces — immediately
active, immediately deleting, indecisive throughout (creating), and an
arbitrary erroring trace for the termination bound. -/
theorem waitUntilTableExists_spec_witness :
    waitUntilTableExists (fun _ => DescribeRes.ok TableStatus.ACTIVE) 0 =
      (Except.ok (), 0) ∧
    waitUntilTableExists (fun _ => DescribeRes.ok TableStatus.DELETING) 0 =
      (Except.error timedOutMsg, 0) ∧
    waitUntilTableExists (fun _ => DescribeRes.ok TableStatus.CREATING) 0 =
      (Except.error timedOutMsg, 6000) ∧
    (waitUntilTableExists (fun _ => DescribeRes.err "denied") 0).2 ≤ 6000 ∧
    createTableIfNotExists DescribeTableOutcome.resourceNotFound (Except.ok ())
      (fun _ => DescribeRes.ok TableStatus.ACTIVE) 0 = Except.ok () := by
  have h := waitUntilTableExists_spec
    (fun _ => DescribeRes.ok TableStatus.ACTIVE)
    (fun _ => DescribeRes.ok TableStatus.DELETING)
    (fun _ => DescribeRes.ok TableStatus.CREATING)
    (fun _ => DescribeRes.err "denied")
    0 0 0 0 0 0 TableStatus.DELETING (Except.ok ())
    (fun j hj => absurd hj (Nat.not_lt_zero j)) rfl (by norm_num)
    (fun j hj => absurd hj (Nat.not_lt_zero j)) (Or.inl rfl) rfl (by norm_num)
    (fun j _ => rfl)
  simpa using h

end DynamoDBSessionStore
